import Mathlib

set_option maxRecDepth 8000

/-! Verification of the SQLite dialect data-type adapter
    (src/lib/dialects/sqlite/data-types.js).

    The module maps abstract ORM column types to SQLite SQL type syntax and
    parses driver-returned raw values.  Pure functions of the JavaScript
    source are embedded as Lean functions; the in-place field mutations
    performed by some functions (clearing of unsupported flags, discarding
    of a TEXT length) are embedded by returning the updated descriptor
    explicitly, together with the list of warning messages emitted through
    the warn channel. -/

/-! ### Decimal rendering of numbers, as JavaScript template literals do -/

/-- Decimal digit character, as produced by JavaScript number-to-string
conversion for a single digit. -/
def digitChar (n : Nat) : Char :=
  match n with
  | 0 => '0'
  | 1 => '1'
  | 2 => '2'
  | 3 => '3'
  | 4 => '4'
  | 5 => '5'
  | 6 => '6'
  | 7 => '7'
  | 8 => '8'
  | 9 => '9'
  | _ => '*'

/-- Fuel-driven list of decimal digits of a natural number, most significant
digit first. -/
def natDigitsAux : Nat → Nat → List Char
  | 0, _ => []
  | fuel + 1, n =>
    if n < 10 then [digitChar n]
    else natDigitsAux fuel (n / 10) ++ [digitChar (n % 10)]

/-- Decimal rendering of a natural number, as JavaScript template-literal
interpolation renders a nonnegative integer. -/
def natToString (n : Nat) : String := ⟨natDigitsAux (n + 1) n⟩

theorem digitChar_ne_space (n : Nat) : digitChar n ≠ ' ' := by
  unfold digitChar
  split <;> decide

theorem natDigitsAux_no_space (fuel : Nat) : ∀ n, ' ' ∉ natDigitsAux fuel n := by
  induction fuel with
  | zero => intro n; simp [natDigitsAux]
  | succ f ih =>
    intro n
    simp only [natDigitsAux]
    split
    · intro h
      exact digitChar_ne_space n (List.mem_singleton.mp h).symm
    · intro h
      rcases List.mem_append.mp h with h2 | h2
      · exact ih _ h2
      · exact digitChar_ne_space _ (List.mem_singleton.mp h2).symm

theorem natToString_no_space (n : Nat) : ' ' ∉ (natToString n).data :=
  natDigitsAux_no_space (n + 1) n

/-! ### FLOAT / DOUBLE / REAL value parsing (src lines 247-262)

    A raw driver-returned JavaScript value is modelled as an inductive:
    strings, the special floating-point values the parse hook can produce,
    integers, booleans and null. -/

/-- A raw JavaScript value handed to a parse hook. -/
inductive RawValue where
  | str (s : String)
  | nanV
  | posInfV
  | negInfV
  | intV (n : Int)
  | boolV (b : Bool)
  | nullV
deriving DecidableEq

/-- The parse hook installed on FLOAT, DOUBLE and REAL: the literal strings
NaN, Infinity and -Infinity become the corresponding special floating-point
values, everything else passes through unchanged. -/
def floatingParse (value : RawValue) : RawValue :=
  match value with
  | .str s =>
    if s = "NaN" then .nanV
    else if s = "Infinity" then .posInfV
    else if s = "-Infinity" then .negInfV
    else .str s
  | v => v

/-! ### DATE value parsing (src lines 64-70)

    The JavaScript Date constructor is modelled as a free constructor
    carrying the exact string it was applied to: the code under analysis
    only decides which string is handed to it. -/

/-- A JavaScript Date, identified by the string the Date constructor was
applied to. -/
structure JsTimestamp where
  source : String
deriving DecidableEq

/-- JavaScript String.prototype.includes restricted to a single-character
needle: the character occurs somewhere in the string. -/
def jsIncludesChar (s : String) (c : Char) : Bool := s.data.contains c

/-- DATE.parse: when the stored string carries no plus sign the
caller-supplied timezone is concatenated onto it before the Date
constructor runs; otherwise the string is handed over as is. -/
def dateParse (date : String) (timezone : String) : JsTimestamp :=
  if !jsIncludesChar date '+' then ⟨date ++ timezone⟩ else ⟨date⟩

/-- C4: FLOAT/DOUBLE/REAL parse maps the exact strings NaN, Infinity and
-Infinity to the corresponding special values and returns every other
string, and every non-string value, unchanged. -/
theorem floating_parse_spec :
    floatingParse (.str "NaN") = .nanV ∧
    floatingParse (.str "Infinity") = .posInfV ∧
    floatingParse (.str "-Infinity") = .negInfV ∧
    (∀ s : String, s ≠ "NaN" → s ≠ "Infinity" → s ≠ "-Infinity" →
      floatingParse (.str s) = .str s) ∧
    (∀ v : RawValue, (∀ s : String, v ≠ .str s) → floatingParse v = v) := by
  refine ⟨rfl, rfl, rfl, ?_, ?_⟩
  · intro s h1 h2 h3
    simp [floatingParse, h1, h2, h3]
  · intro v hv
    cases v with
    | str s => exact absurd rfl (hv s)
    | nanV => rfl
    | posInfV => rfl
    | negInfV => rfl
    | intV n => rfl
    | boolV b => rfl
    | nullV => rfl

/-- C4 witness: the pass-through cases evaluated at the concrete inputs
"3.5" and the non-string 3. -/
theorem floating_parse_spec_witness :
    floatingParse (.str "3.5") = .str "3.5" ∧
    floatingParse (.intV 3) = .intV 3 :=
  ⟨floating_parse_spec.2.2.2.1 "3.5" (by decide) (by decide) (by decide),
   floating_parse_spec.2.2.2.2 (.intV 3) (fun _ h => RawValue.noConfusion h)⟩

/-- C5: DATE.parse concatenates the caller-supplied timezone onto strings
containing no plus sign and parses strings containing one directly; in
particular the two example inputs of the specification produce the same
timestamp. -/
theorem date_parse_spec :
    (∀ date timezone : String, jsIncludesChar date '+' = false →
      dateParse date timezone = ⟨date ++ timezone⟩) ∧
    (∀ date timezone : String, jsIncludesChar date '+' = true →
      dateParse date timezone = ⟨date⟩) ∧
    (∀ timezone : String,
      dateParse "2020-01-01 00:00:00" "+00:00" =
        dateParse "2020-01-01 00:00:00+00:00" timezone) := by
  refine ⟨?_, ?_, ?_⟩
  · intro d tz h
    simp [dateParse, h]
  · intro d tz h
    simp [dateParse, h]
  · intro tz
    have h1 : jsIncludesChar "2020-01-01 00:00:00" '+' = false := by decide
    have h2 : jsIncludesChar "2020-01-01 00:00:00+00:00" '+' = true := by decide
    simp only [dateParse, h1, h2, Bool.not_false, Bool.not_true, if_true,
      Bool.false_eq_true, if_false, JsTimestamp.mk.injEq]
    decide

/-- C5 witness: the two branches evaluated at the concrete example inputs of
the specification. -/
theorem date_parse_spec_witness :
    dateParse "2020-01-01 00:00:00" "+00:00" = ⟨"2020-01-01 00:00:00+00:00"⟩ ∧
    dateParse "2020-01-01 00:00:00+02:00" "+00:00" = ⟨"2020-01-01 00:00:00+02:00"⟩ := by
  constructor
  · have h := date_parse_spec.1 "2020-01-01 00:00:00" "+00:00" (by decide)
    rw [h]
    decide
  · exact date_parse_spec.2.1 "2020-01-01 00:00:00+02:00" "+00:00" (by decide)

/-- C10: a string carrying a negative timezone offset but no plus sign takes
the concatenation branch of DATE.parse, even though it already contains an
offset. -/
theorem date_parse_negative_offset_concat :
    ∀ timezone : String,
      dateParse "2020-01-01 00:00:00-05:00" timezone =
        ⟨"2020-01-01 00:00:00-05:00" ++ timezone⟩ ∧
      jsIncludesChar "2020-01-01 00:00:00-05:00" '+' = false := by
  intro tz
  have h : jsIncludesChar "2020-01-01 00:00:00-05:00" '+' = false := by decide
  exact ⟨by simp [dateParse, h], h⟩

/-! ### Type descriptors and constructors

    The base abstract type classes are owned by the surrounding ORM and are
    not part of this module; construction is modelled from the spec: a
    constructor stores the supplied options record unchanged and copies the
    individual option fields onto the instance.  The dialect module then
    post-processes integer instances (src lines 14-20, 160-218). -/

/-- Modelled from the spec: the options record a caller configures on an
abstract type (length, decimals, binary flag, unsigned and zerofill flags,
allowed enum values).  The base type classes that read it are outside this
module. -/
structure TypeOptions where
  length : Option Nat := none
  decimals : Option Nat := none
  binary : Bool := false
  unsigned : Bool := false
  zerofill : Bool := false
  values : List String := []
deriving DecidableEq

/-- A constructed type instance: its key, the options record stored at
construction, and the individual option fields the renderers read. -/
structure TypeInstance where
  key : String
  options : TypeOptions := {}
  _length : Option Nat := none
  _decimals : Option Nat := none
  _binary : Bool := false
  _unsigned : Bool := false
  _zerofill : Bool := false
deriving DecidableEq

/-- The warning message of removeUnsupportedIntegerOptions (src line 16). -/
def integerWarningMsg (key : String) : String :=
  "SQLite does not support \x27" ++ key ++
    "\x27 with UNSIGNED or ZEROFILL. Plain \x27" ++ key ++
    "\x27 will be used instead."

/-- removeUnsupportedIntegerOptions (src lines 14-20): when either flag is
set, warn once and clear both flags. -/
def removeUnsupportedIntegerOptions (dataType : TypeInstance) :
    TypeInstance × List String :=
  if dataType._zerofill || dataType._unsigned then
    ({ dataType with _unsigned := false, _zerofill := false },
     [integerWarningMsg dataType.key])
  else (dataType, [])

/-- JavaScript truthiness of an optional number: undefined and 0 are falsy. -/
def natTruthy : Option Nat → Bool
  | none => false
  | some n => n != 0

/-- The decimals part of the rendered length suffix: present exactly when
the decimals field holds a number (src lines 152-154). -/
def decimalsSuffix : Option Nat → String
  | some d => "," ++ natToString d
  | none => ""

/-- The parenthesized length suffix of NUMBER.prototype.toSql
(src lines 150-156), rendered only for a truthy length. -/
def lengthSuffix (len dec : Option Nat) : String :=
  if natTruthy len then
    "(" ++ natToString (len.getD 0) ++ decimalsSuffix dec ++ ")"
  else ""

/-- NUMBER.prototype.toSql (src lines 140-158): the key, optionally
suffixed with UNSIGNED, ZEROFILL and the length part. -/
def numberToSql (t : TypeInstance) : String :=
  t.key ++ (if t._unsigned then " UNSIGNED" else "")
        ++ (if t._zerofill then " ZEROFILL" else "")
        ++ lengthSuffix t._length t._decimals

/-- The exported type constructors of the module (src lines 278-296). -/
inductive ExportKey where
  | DATE
  | DATEONLY
  | STRING
  | CHAR
  | NUMBER
  | FLOAT
  | REAL
  | DOUBLE
  | TINYINT
  | SMALLINT
  | MEDIUMINT
  | INTEGER
  | BIGINT
  | TEXT
  | ENUM
  | JSON
  | CITEXT
deriving DecidableEq

/-- Modelled from the spec: the key identifier of each exported type (every
exported type has a non-empty key; the DOUBLE entry is exported and keyed
as DOUBLE PRECISION). -/
def keyOf : ExportKey → String
  | .DATE => "DATE"
  | .DATEONLY => "DATEONLY"
  | .STRING => "STRING"
  | .CHAR => "CHAR"
  | .NUMBER => "NUMBER"
  | .FLOAT => "FLOAT"
  | .REAL => "REAL"
  | .DOUBLE => "DOUBLE PRECISION"
  | .TINYINT => "TINYINT"
  | .SMALLINT => "SMALLINT"
  | .MEDIUMINT => "MEDIUMINT"
  | .INTEGER => "INTEGER"
  | .BIGINT => "BIGINT"
  | .TEXT => "TEXT"
  | .ENUM => "ENUM"
  | .JSON => "JSON"
  | .CITEXT => "CITEXT"

/-- The five integer constructors that call removeUnsupportedIntegerOptions
(src lines 160-218). -/
def isIntegerKind : ExportKey → Bool
  | .TINYINT => true
  | .SMALLINT => true
  | .MEDIUMINT => true
  | .INTEGER => true
  | .BIGINT => true
  | _ => false

/-- Construction of an exported type from an options record: the base
constructor (modelled from the spec) stores the options record and copies
its fields; the five integer constructors then run
removeUnsupportedIntegerOptions (src lines 160-218).  Construction is
total: it never rejects its input. -/
def construct (k : ExportKey) (o : TypeOptions) : TypeInstance × List String :=
  let inst : TypeInstance :=
    { key := keyOf k, options := o, _length := o.length,
      _decimals := o.decimals, _binary := o.binary,
      _unsigned := o.unsigned, _zerofill := o.zerofill }
  if isIntegerKind k then removeUnsupportedIntegerOptions inst else (inst, [])

/-! ### Absence of the UNSIGNED / ZEROFILL suffixes -/

theorem not_infix_of_space {pat l : List Char}
    (hp : ' ' ∈ pat) (hl : ' ' ∉ l) : ¬ pat <:+: l :=
  fun h => hl (h.subset hp)

theorem decimalsSuffix_no_space (dec : Option Nat) :
    ' ' ∉ (decimalsSuffix dec).data := by
  cases dec with
  | none => simp [decimalsSuffix]
  | some d =>
    intro h
    simp only [decimalsSuffix, String.data_append] at h
    rcases List.mem_append.mp h with h2 | h2
    · simp at h2
    · exact natToString_no_space d h2

theorem lengthSuffix_no_space (len dec : Option Nat) :
    ' ' ∉ (lengthSuffix len dec).data := by
  unfold lengthSuffix
  split
  · intro h
    simp only [String.data_append] at h
    rcases List.mem_append.mp h with h2 | h2
    · rcases List.mem_append.mp h2 with h3 | h3
      · rcases List.mem_append.mp h3 with h4 | h4
        · simp at h4
        · exact natToString_no_space _ h4
      · exact decimalsSuffix_no_space dec h3
    · simp at h2
  · simp

theorem numberToSql_no_space (t : TypeInstance) (hk : ' ' ∉ t.key.data)
    (hu : t._unsigned = false) (hz : t._zerofill = false) :
    ' ' ∉ (numberToSql t).data := by
  intro h
  simp only [numberToSql, hu, hz, if_neg, Bool.false_eq_true, if_false,
    String.data_append] at h
  rcases List.mem_append.mp h with h2 | h2
  · rcases List.mem_append.mp h2 with h3 | h3
    · rcases List.mem_append.mp h3 with h4 | h4
      · exact hk h4
      · simp at h4
    · simp at h3
  · exact lengthSuffix_no_space _ _ h2

theorem key_infix_integer_warning (key : String) :
    key.data <:+: (integerWarningMsg key).data := by
  refine ⟨("SQLite does not support \x27" : String).data,
    ("\x27 with UNSIGNED or ZEROFILL. Plain \x27" ++ key ++
      "\x27 will be used instead.").data, ?_⟩
  simp only [integerWarningMsg, String.data_append, List.append_assoc]

/-- C1: constructing any of the five integer types with unsigned or zerofill
requested clears both flags, emits exactly one warning whose text names the
type key, never rejects construction (construction is total), and the SQL
subsequently rendered from the instance contains no UNSIGNED and no
ZEROFILL fragment. -/
theorem integer_construct_clears_unsupported :
    ∀ (k : ExportKey) (o : TypeOptions), isIntegerKind k = true →
      o.unsigned = true ∨ o.zerofill = true →
      (construct k o).1._unsigned = false ∧
      (construct k o).1._zerofill = false ∧
      (construct k o).2 = [integerWarningMsg (keyOf k)] ∧
      (keyOf k).data <:+: (integerWarningMsg (keyOf k)).data ∧
      ¬ (" UNSIGNED".data <:+: (numberToSql (construct k o).1).data) ∧
      ¬ (" ZEROFILL".data <:+: (numberToSql (construct k o).1).data) := by
  intro k o hk ho
  have hcond : (o.zerofill || o.unsigned) = true := by
    rcases ho with h | h <;> simp [h]
  have hstep :
      construct k o =
        ({ key := keyOf k, options := o, _length := o.length,
           _decimals := o.decimals, _binary := o.binary,
           _unsigned := false, _zerofill := false },
         [integerWarningMsg (keyOf k)]) := by
    simp [construct, hk, removeUnsupportedIntegerOptions, hcond]
  have hspace : ' ' ∉ (keyOf k).data := by
    cases k <;> simp_all [isIntegerKind] <;> decide
  refine ⟨by rw [hstep], by rw [hstep], by rw [hstep],
    key_infix_integer_warning (keyOf k), ?_, ?_⟩
  · refine not_infix_of_space (by decide) ?_
    rw [hstep]
    exact numberToSql_no_space _ hspace rfl rfl
  · refine not_infix_of_space (by decide) ?_
    rw [hstep]
    exact numberToSql_no_space _ hspace rfl rfl

/-- C1 witness: TINYINT constructed with unsigned requested, evaluated
concretely. -/
theorem integer_construct_clears_unsupported_witness :
    (construct .TINYINT { unsigned := true }).1._unsigned = false ∧
    (construct .TINYINT { unsigned := true }).2 =
      [integerWarningMsg "TINYINT"] ∧
    numberToSql (construct .TINYINT { unsigned := true }).1 = "TINYINT" := by
  have h := integer_construct_clears_unsupported .TINYINT { unsigned := true }
    (by decide) (Or.inl rfl)
  exact ⟨h.1, h.2.2.1, by decide⟩

/-! ### String-like renderers (src lines 82-132), TEXT (96-108),
    CITEXT (110-118) and ENUM (264-276) -/

/-- Modelled from the spec: the base STRING rendering the dialect falls back
to when the binary flag is unset, VARCHAR(length). -/
def baseStringToSql (len : Nat) : String :=
  "VARCHAR(" ++ natToString len ++ ")"

/-- STRING.prototype.toSql (src lines 88-94). -/
def stringToSql (len : Nat) (binary : Bool) : String :=
  if binary then "VARCHAR BINARY(" ++ natToString len ++ ")"
  else baseStringToSql len

/-- Modelled from the spec: the base CHAR rendering the dialect falls back
to when the binary flag is unset, CHAR(length). -/
def baseCharToSql (len : Nat) : String :=
  "CHAR(" ++ natToString len ++ ")"

/-- CHAR.prototype.toSql (src lines 126-132). -/
def charToSql (len : Nat) (binary : Bool) : String :=
  if binary then "CHAR BINARY(" ++ natToString len ++ ")"
  else baseCharToSql len

/-- The warning message of TEXT.prototype.toSql (src line 104). -/
def textWarningMsg : String :=
  "SQLite does not support TEXT with options. Plain \x60TEXT\x60 will be used instead."

/-- TEXT.prototype.toSql (src lines 102-108).  The length field of a TEXT
instance is a string; the base constructor (outside this module) stores the
empty string when no length option is supplied, so the truthiness test of
the source is the test for a non-empty length.  The function returns the
rendered SQL, the updated length field and the warnings emitted. -/
def textToSql (len : String) : String × String × List String :=
  if len = "" then ("TEXT", len, [])
  else ("TEXT", "", [textWarningMsg])

/-- CITEXT.prototype.toSql (src lines 116-118). -/
def citextToSql : String := "TEXT COLLATE NOCASE"

/-- ENUM.prototype.toSql (src lines 274-276). -/
def enumToSql : String := "TEXT"

/-- A descriptor of any of the types that carry a toSql override in this
module: STRING and CHAR with their stored length and binary flag, TEXT with
its stored string length, CITEXT, ENUM, and the NUMBER family through a
full numeric instance. -/
inductive SqliteType where
  | stringT (len : Nat) (binary : Bool)
  | textT (len : String)
  | citextT
  | charT (len : Nat) (binary : Bool)
  | numberT (d : TypeInstance)
  | enumT
deriving DecidableEq

/-- The rendering operation of every descriptor, with its effects made
explicit: the rendered SQL, the descriptor as it is left after the call,
and the warnings emitted during the call. -/
def toSqlFull : SqliteType → String × SqliteType × List String
  | .stringT len binary => (stringToSql len binary, .stringT len binary, [])
  | .textT len =>
    let r := textToSql len
    (r.1, .textT r.2.1, r.2.2)
  | .citextT => (citextToSql, .citextT, [])
  | .charT len binary => (charToSql len binary, .charT len binary, [])
  | .numberT d => (numberToSql d, .numberT d, [])
  | .enumT => (enumToSql, .enumT, [])

/-- C2 counterexample: rendering is not free of effects on the descriptor.
A TEXT descriptor with the length option tiny is changed by its own toSql
call: the length field is cleared. -/
theorem toSql_mutates_text_descriptor :
    (toSqlFull (.textT "tiny")).2.1 ≠ .textT "tiny" := by
  decide

/-- C2 amended: calling toSql twice returns the same string both times for
every descriptor, and toSql leaves every field unchanged for every
descriptor except a TEXT descriptor, whose non-empty length field it
clears. -/
theorem toSql_idempotent_and_frame :
    ∀ t : SqliteType,
      (toSqlFull ((toSqlFull t).2.1)).1 = (toSqlFull t).1 ∧
      (toSqlFull t).2.1 =
        (match t with
         | .textT _ => .textT ""
         | u => u) := by
  intro t
  cases t with
  | stringT len binary => exact ⟨rfl, rfl⟩
  | textT len =>
    by_cases h : len = ""
    · subst h
      exact ⟨rfl, rfl⟩
    · constructor
      · simp [toSqlFull, textToSql, h]
      · simp [toSqlFull, textToSql, h]
  | citextT => exact ⟨rfl, rfl⟩
  | charT len binary => exact ⟨rfl, rfl⟩
  | numberT d => exact ⟨rfl, rfl⟩
  | enumT => exact ⟨rfl, rfl⟩

/-- C6: with the binary flag set a STRING renders as VARCHAR BINARY(length)
and a CHAR as CHAR BINARY(length); with it unset they render as
VARCHAR(length) and CHAR(length); evaluated also at the concrete length 10
of the specification. -/
theorem string_char_binary_render :
    (∀ len : Nat,
      stringToSql len true = "VARCHAR BINARY(" ++ natToString len ++ ")" ∧
      stringToSql len false = "VARCHAR(" ++ natToString len ++ ")" ∧
      charToSql len true = "CHAR BINARY(" ++ natToString len ++ ")" ∧
      charToSql len false = "CHAR(" ++ natToString len ++ ")") ∧
    stringToSql 10 true = "VARCHAR BINARY(10)" ∧
    stringToSql 10 false = "VARCHAR(10)" ∧
    charToSql 10 true = "CHAR BINARY(10)" ∧
    charToSql 10 false = "CHAR(10)" := by
  refine ⟨fun len => ⟨rfl, rfl, rfl, rfl⟩, by decide, by decide, by decide, by decide⟩

/-- C7: TEXT always renders as exactly TEXT; a supplied (non-empty) length
is discarded with exactly one warning; with no length supplied no warning
is emitted and nothing changes. -/
theorem text_render_spec :
    ∀ len : String,
      (textToSql len).1 = "TEXT" ∧
      (len ≠ "" → (textToSql len).2.2 = [textWarningMsg] ∧
        (textToSql len).2.1 = "") ∧
      (len = "" → (textToSql len).2.2 = [] ∧ (textToSql len).2.1 = len) := by
  intro len
  by_cases h : len = ""
  · subst h
    exact ⟨rfl, fun hc => absurd rfl hc, fun _ => ⟨rfl, rfl⟩⟩
  · exact ⟨by simp [textToSql, h], fun _ => ⟨by simp [textToSql, h], by simp [textToSql, h]⟩,
      fun hc => absurd hc h⟩

/-- C7 witness: TEXT evaluated with the length option tiny and with no
length option. -/
theorem text_render_spec_witness :
    (textToSql "tiny").1 = "TEXT" ∧
    (textToSql "tiny").2.2 = [textWarningMsg] ∧
    (textToSql "tiny").2.1 = "" ∧
    (textToSql "").2.2 = [] := by
  have h1 := text_render_spec "tiny"
  have h2 := text_render_spec ""
  exact ⟨h1.1, (h1.2.1 (by decide)).1, (h1.2.1 (by decide)).2, (h2.2.2 rfl).1⟩

/-! ### Reverse alias table (src lines 26-46) and the rendering round trip -/

/-- The per-type lists of native SQLite type names assigned to
BaseTypes.*.types.sqlite in src lines 26-46; none stands for the explicit
unsupported marker (false) on ENUM and GEOMETRY. -/
def typesSqlite : List (String × Option (List String)) :=
  [("DATE", some ["DATETIME"]),
   ("STRING", some ["VARCHAR", "VARCHAR BINARY"]),
   ("CHAR", some ["CHAR", "CHAR BINARY"]),
   ("TEXT", some ["TEXT"]),
   ("TINYINT", some ["TINYINT"]),
   ("SMALLINT", some ["SMALLINT"]),
   ("MEDIUMINT", some ["MEDIUMINT"]),
   ("INTEGER", some ["INTEGER"]),
   ("BIGINT", some ["BIGINT"]),
   ("FLOAT", some ["FLOAT"]),
   ("TIME", some ["TIME"]),
   ("DATEONLY", some ["DATE"]),
   ("BOOLEAN", some ["TINYINT"]),
   ("BLOB", some ["TINYBLOB", "BLOB", "LONGBLOB"]),
   ("DECIMAL", some ["DECIMAL"]),
   ("UUID", some ["UUID"]),
   ("ENUM", none),
   ("REAL", some ["REAL"]),
   ("DOUBLE PRECISION", some ["DOUBLE PRECISION"]),
   ("GEOMETRY", none),
   ("JSON", some ["JSON", "JSONB"])]

/-- Reverse lookup in the alias table: the abstract type keys whose alias
list recognizes the given native SQL type name.  The table is plain data in
the source; the spec describes the lookup as identification, deliberately
ambiguous for TINYINT, so the lookup returns every matching key. -/
def reverseLookup (name : String) : List String :=
  (typesSqlite.filter (fun p =>
    match p.2 with
    | some aliases => aliases.contains name
    | none => false)).map Prod.fst

/-- The native type name of a rendered SQL type clause: everything before
the parenthesized length suffix. -/
def sqlTypeName (s : String) : String := ⟨s.data.takeWhile (fun c => c ≠ '(')⟩

/-- A default numeric instance of a given key: no length, no decimals, no
flags. -/
def defaultNumber (key : String) : TypeInstance := { key := key }

/-- Modelled from the spec: the renderings, on a default instance, of the
base types that carry no toSql override in this module (their toSql lives
in the base type classes outside it): DATE renders DATETIME, DATEONLY
renders DATE, BOOLEAN renders TINYINT(1), and TIME, BLOB, DECIMAL, UUID and
JSON render their own name (default abstract rendering by key). -/
def baseDefaultRender (key : String) : String :=
  if key = "DATE" then "DATETIME"
  else if key = "DATEONLY" then "DATE"
  else if key = "BOOLEAN" then "TINYINT(1)"
  else key

/-- The SQL rendered for a freshly constructed, unconfigured instance of
the abstract type with the given key: the dialect toSql overrides of this
module where they exist, the base renderings otherwise. -/
def defaultRender (key : String) : String :=
  if key = "STRING" then stringToSql 255 false
  else if key = "CHAR" then charToSql 255 false
  else if key = "TEXT" then (textToSql "").1
  else if key = "ENUM" then enumToSql
  else if key = "TINYINT" ∨ key = "SMALLINT" ∨ key = "MEDIUMINT" ∨
          key = "INTEGER" ∨ key = "BIGINT" ∨ key = "FLOAT" ∨
          key = "REAL" ∨ key = "DOUBLE PRECISION" then
    numberToSql (defaultNumber key)
  else baseDefaultRender key

/-- C3: for every abstract type whose reverse mapping is supported (its
alias list in the table is not the unsupported marker), rendering a default
instance and looking the native name of the result up in the reverse alias
table identifies the original abstract type key. -/
theorem render_reverse_roundtrip :
    ∀ (key : String) (aliases : List String),
      (key, some aliases) ∈ typesSqlite →
      key ∈ reverseLookup (sqlTypeName (defaultRender key)) := by
  intro key aliases h
  have hall : ∀ p ∈ typesSqlite, p.2.isSome = true →
      p.1 ∈ reverseLookup (sqlTypeName (defaultRender p.1)) := by
    decide
  exact hall (key, some aliases) h rfl

/-- C3 witness: the round trip evaluated at the DATE entry of the table. -/
theorem render_reverse_roundtrip_witness :
    ("DATE", some ["DATETIME"]) ∈ typesSqlite ∧
    "DATE" ∈ reverseLookup (sqlTypeName (defaultRender "DATE")) :=
  ⟨by decide, render_reverse_roundtrip "DATE" ["DATETIME"] (by decide)⟩

/-! ### The extend operation (src lines 298-305) -/

/-- DataType.extend (src lines 301-303): given an existing instance, build
a new instance of the same exported type from the options record the old
instance stored at construction.  The body of the source only reads
oldType.options, so the operation is embedded as a pure function of the old
instance. -/
def extendType (k : ExportKey) (oldType : TypeInstance) :
    TypeInstance × List String :=
  construct k oldType.options

/-- C9: for every exported type and every instance of it, extend constructs
a new instance of the same kind (same key) whose stored options record
equals that of the given instance; the given instance is only read, never
written. -/
theorem extend_preserves_kind_and_options :
    ∀ (k : ExportKey) (oldType : TypeInstance), oldType.key = keyOf k →
      (extendType k oldType).1.key = keyOf k ∧
      (extendType k oldType).1.options = oldType.options := by
  intro k oldType _
  simp only [extendType, construct, removeUnsupportedIntegerOptions]
  split
  · split <;> exact ⟨rfl, rfl⟩
  · exact ⟨rfl, rfl⟩

/-- C9 witness: extend evaluated on a STRING instance with a configured
length and binary flag, and on an INTEGER instance whose options still
request unsigned. -/
theorem extend_preserves_kind_and_options_witness :
    (extendType .STRING (construct .STRING
      { length := some 42, binary := true }).1).1.options =
        { length := some 42, binary := true } ∧
    (extendType .INTEGER (construct .INTEGER
      { unsigned := true }).1).1.options = { unsigned := true } := by
  constructor
  · have h := extend_preserves_kind_and_options .STRING
      (construct .STRING { length := some 42, binary := true }).1 (by decide)
    rw [h.2]
    decide
  · have h := extend_preserves_kind_and_options .INTEGER
      (construct .INTEGER { unsigned := true }).1 (by decide)
    rw [h.2]
    decide

/-! ### JSON value parsing (src lines 54-56)

    JSONTYPE.parse is a one-line delegation to the JSON.parse builtin with
    no local error handling.  The builtin is not part of this repository;
    it is modelled from the spec as an executable JSON text parser
    returning either the decoded value or a parse error. -/

/-- A decoded JSON value.  A number is kept as its literal text. -/
inductive JsonVal where
  | jnull
  | jbool (b : Bool)
  | jnum (lexeme : String)
  | jstr (s : String)
  | jarr (elems : List JsonVal)
  | jobj (fields : List (String × JsonVal))

/-- JSON insignificant whitespace. -/
def isJsonWs (c : Char) : Bool :=
  c = ' ' || c = '\t' || c = '\n' || c = '\r'

/-- Drop leading JSON whitespace. -/
def skipWs (cs : List Char) : List Char := cs.dropWhile isJsonWs

/-- The single-character JSON string escapes. -/
def escChar : Char → Option Char
  | '"' => some '"'
  | '\\' => some '\\'
  | '/' => some '/'
  | 'b' => some (Char.ofNat 8)
  | 'f' => some (Char.ofNat 12)
  | 'n' => some '\n'
  | 'r' => some '\r'
  | 't' => some '\t'
  | _ => none

/-- The value of a hexadecimal digit. -/
def hexVal (c : Char) : Option Nat :=
  if '0' ≤ c ∧ c ≤ '9' then some (c.toNat - 48)
  else if 'a' ≤ c ∧ c ≤ 'f' then some (c.toNat - 87)
  else if 'A' ≤ c ∧ c ≤ 'F' then some (c.toNat - 55)
  else none

/-- Decode the remainder of a JSON string literal, after its opening quote:
the decoded characters and the input following the closing quote. -/
def parseStringRest : List Char → Option (List Char × List Char)
  | [] => none
  | c :: rest =>
    if c = '"' then some ([], rest)
    else if c = '\\' then
      match rest with
      | [] => none
      | e :: rest2 =>
        if e = 'u' then
          match rest2 with
          | a :: b :: c2 :: d :: rest3 =>
            match hexVal a, hexVal b, hexVal c2, hexVal d with
            | some ha, some hb, some hc, some hd =>
              match parseStringRest rest3 with
              | some (s, rr) =>
                some (Char.ofNat (((ha * 16 + hb) * 16 + hc) * 16 + hd) :: s, rr)
              | none => none
            | _, _, _, _ => none
          | _ => none
        else
          match escChar e with
          | some ec =>
            match parseStringRest rest2 with
            | some (s, rr) => some (ec :: s, rr)
            | none => none
          | none => none
    else if c.toNat < 32 then none
    else
      match parseStringRest rest with
      | some (s, rr) => some (c :: s, rr)
      | none => none

/-- The maximal run of decimal digits at the head of the input, and the
rest. -/
def digitSpan (cs : List Char) : List Char × List Char :=
  (cs.takeWhile Char.isDigit, cs.dropWhile Char.isDigit)

/-- The optional fraction part of a JSON number. -/
def fracTail (cs : List Char) : List Char × List Char :=
  match cs with
  | '.' :: rest =>
    let p := digitSpan rest
    if p.1 = [] then ([], cs) else ('.' :: p.1, p.2)
  | _ => ([], cs)

/-- The optional exponent part of a JSON number. -/
def expTail (cs : List Char) : List Char × List Char :=
  match cs with
  | e :: rest =>
    if e = 'e' ∨ e = 'E' then
      match rest with
      | s :: rest2 =>
        if s = '+' ∨ s = '-' then
          let p := digitSpan rest2
          if p.1 = [] then ([], cs) else (e :: s :: p.1, p.2)
        else
          let p := digitSpan rest
          if p.1 = [] then ([], cs) else (e :: p.1, p.2)
      | [] => ([], cs)
    else ([], cs)
  | [] => ([], cs)

/-- The fraction and exponent parts of a JSON number. -/
def numTail (cs : List Char) : List Char × List Char :=
  let f := fracTail cs
  let e := expTail f.2
  (f.1 ++ e.1, e.2)

/-- Lex a JSON number literal: optional minus sign, an integer part with no
leading zero, optional fraction and exponent. -/
def parseNumLex (cs : List Char) : Option (List Char × List Char) :=
  let p : List Char × List Char :=
    match cs with
    | '-' :: r => (['-'], r)
    | _ => ([], cs)
  match p.2 with
  | c :: rest =>
    if c = '0' then
      let t := numTail rest
      some (p.1 ++ '0' :: t.1, t.2)
    else if c.isDigit then
      let d := digitSpan p.2
      let t := numTail d.2
      some (p.1 ++ d.1 ++ t.1, t.2)
    else none
  | [] => none

mutual

/-- Parse one JSON value from the input, whitespace allowed before it. -/
def parseJsonVal : Nat → List Char → Option (JsonVal × List Char)
  | 0, _ => none
  | fuel + 1, cs =>
    match skipWs cs with
    | [] => none
    | c :: rest =>
      if c = 'n' then
        match rest with
        | 'u' :: 'l' :: 'l' :: r => some (.jnull, r)
        | _ => none
      else if c = 't' then
        match rest with
        | 'r' :: 'u' :: 'e' :: r => some (.jbool true, r)
        | _ => none
      else if c = 'f' then
        match rest with
        | 'a' :: 'l' :: 's' :: 'e' :: r => some (.jbool false, r)
        | _ => none
      else if c = '"' then
        match parseStringRest rest with
        | some (s, r) => some (.jstr ⟨s⟩, r)
        | none => none
      else if c = '[' then
        match skipWs rest with
        | ']' :: r => some (.jarr [], r)
        | _ =>
          match parseArrElems fuel rest with
          | some (vs, r) => some (.jarr vs, r)
          | none => none
      else if c = '\x7b' then
        match skipWs rest with
        | '\x7d' :: r => some (.jobj [], r)
        | _ =>
          match parseObjFields fuel rest with
          | some (fs, r) => some (.jobj fs, r)
          | none => none
      else
        match parseNumLex (c :: rest) with
        | some (lex, r) => some (.jnum ⟨lex⟩, r)
        | none => none

/-- Parse the comma-separated elements of a non-empty JSON array, up to and
including the closing bracket. -/
def parseArrElems : Nat → List Char → Option (List JsonVal × List Char)
  | 0, _ => none
  | fuel + 1, cs =>
    match parseJsonVal fuel cs with
    | none => none
    | some (v, r) =>
      match skipWs r with
      | ',' :: r2 =>
        match parseArrElems fuel r2 with
        | some (vs, r3) => some (v :: vs, r3)
        | none => none
      | ']' :: r2 => some ([v], r2)
      | _ => none

/-- Parse the comma-separated members of a non-empty JSON object, up to and
including the closing brace. -/
def parseObjFields : Nat → List Char → Option (List (String × JsonVal) × List Char)
  | 0, _ => none
  | fuel + 1, cs =>
    match skipWs cs with
    | '"' :: r =>
      match parseStringRest r with
      | none => none
      | some (k, r2) =>
        match skipWs r2 with
        | ':' :: r3 =>
          match parseJsonVal fuel r3 with
          | none => none
          | some (v, r4) =>
            match skipWs r4 with
            | ',' :: r5 =>
              match parseObjFields fuel r5 with
              | some (fs, r6) => some ((⟨k⟩, v) :: fs, r6)
              | none => none
            | '\x7d' :: r5 => some ([(⟨k⟩, v)], r5)
            | _ => none
        | _ => none
    | _ => none

end

/-- Modelled from the spec: the JavaScript JSON.parse builtin, which this
module calls but does not define.  It decodes the text as a JSON value and
reports a parse error on any input that is not valid JSON text. -/
def jsParseJson (data : String) : Except String JsonVal :=
  match parseJsonVal (2 * data.length + 2) data.data with
  | some (v, rest) =>
    if skipWs rest = [] then .ok v
    else .error "Unexpected non-whitespace character after JSON data"
  | none => .error "Unexpected end of JSON input"

/-- JSONTYPE.parse (src lines 54-56): return JSON.parse(data), with no
local try/catch, so a parse failure propagates to the caller. -/
def jsontypeParse (data : String) : Except String JsonVal :=
  jsParseJson data

/-- C8: JSONTYPE.parse returns the decoded value on every input the JSON
parser accepts and propagates, uncaught, the parse error on every input it
rejects; evaluated on a valid array, a valid object and a malformed
input. -/
theorem json_parse_delegates :
    (∀ (s : String) (v : JsonVal), jsParseJson s = .ok v →
      jsontypeParse s = .ok v) ∧
    (∀ (s e : String), jsParseJson s = .error e →
      jsontypeParse s = .error e) ∧
    jsontypeParse "[1,true,null]" =
      .ok (.jarr [.jnum "1", .jbool true, .jnull]) ∧
    jsontypeParse "\x7b\"a\":1\x7d" = .ok (.jobj [("a", .jnum "1")]) ∧
    jsontypeParse "[1," = .error "Unexpected end of JSON input" := by
  exact ⟨fun s v h => h, fun s e h => h, rfl, rfl, rfl⟩

/-- C8 witness: the delegation applied at the concrete inputs null and
nul. -/
theorem json_parse_delegates_witness :
    jsontypeParse "null" = .ok .jnull ∧
    jsontypeParse "nul" = .error "Unexpected end of JSON input" :=
  ⟨json_parse_delegates.1 "null" .jnull rfl,
   json_parse_delegates.2.1 "nul" "Unexpected end of JSON input" rfl⟩
